import Mathlib

/-!
Verification of `src/laz_utils.h` (single-header C utility library).

The development shallowly embeds the two components with algorithmic
content:

* the FNV-1a hash functions `fnv1a_32_buf`, `fnv1a_32_str`,
  `fnv1a_64_buf`, `fnv1a_64_str` — pure functions over byte sequences,
  with machine arithmetic modelled as `Nat` reduced modulo `2 ^ 32`
  resp. `2 ^ 64` after each multiplication (a byte, read through
  `unsigned char`, is modelled as a `Nat` reduced modulo `256`);

* the file loader `load_file` — a stateful function whose interaction
  with the C standard library (`fopen`, `fseek`, `ftell`, `fread`,
  `fclose`) is modelled by an explicit environment `FileEnv` recording
  the outcome of each call, and whose observable effects (return value,
  destination-buffer contents, diagnostics, whether a read was issued,
  whether the handle was released) are collected in `LoadResult`.
-/

namespace LazUtils

/-! ## HashEngine: FNV-1a constants and loops -/

def FNV1A_32_PRIME : Nat := 0x01000193
def FNV1A_32_INITIAL_VAL : Nat := 0x811c9dc5
def FNV1A_64_PRIME : Nat := 0x100000001b3
def FNV1A_64_INITIAL_VAL : Nat := 0xcbf29ce484222325

/-- One step of the 32-bit loop body:
`hval ^= (uint32_t)byte; hval *= FNV1A_32_PRIME;` with `uint32_t`
wraparound. -/
def fnv1a_32_step (hval b : Nat) : Nat :=
  ((hval ^^^ (b % 256)) * FNV1A_32_PRIME) % 2 ^ 32

/-- One step of the 64-bit loop body:
`hval ^= (uint64_t)byte; hval *= FNV1A_64_PRIME;` with `uint64_t`
wraparound. -/
def fnv1a_64_step (hval b : Nat) : Nat :=
  ((hval ^^^ (b % 256)) * FNV1A_64_PRIME) % 2 ^ 64

/-- Loop of `fnv1a_32_buf`: processes every byte of the range. -/
def fnv1a_32_go (hval : Nat) : List Nat → Nat
  | [] => hval
  | b :: rest => fnv1a_32_go (fnv1a_32_step hval b) rest

/-- `uint32_t fnv1a_32_buf(const void *buf, size_t len)`: the buffer is
modelled as the list of its `len` bytes. -/
def fnv1a_32_buf (buf : List Nat) : Nat :=
  fnv1a_32_go FNV1A_32_INITIAL_VAL buf

/-- Loop of `fnv1a_32_str`: processes bytes until the first zero byte
(the C loop condition `s[0] != '\0'`).  The list models the bytes in
memory starting at `str`; a well-formed C string contains its
terminating zero byte in the list. -/
def fnv1a_32_str_go (hval : Nat) : List Nat → Nat
  | [] => hval
  | b :: rest =>
    if b % 256 = 0 then hval else fnv1a_32_str_go (fnv1a_32_step hval b) rest

/-- `uint32_t fnv1a_32_str(const char *str)`. -/
def fnv1a_32_str (mem : List Nat) : Nat :=
  fnv1a_32_str_go FNV1A_32_INITIAL_VAL mem

/-- Loop of `fnv1a_64_buf`. -/
def fnv1a_64_go (hval : Nat) : List Nat → Nat
  | [] => hval
  | b :: rest => fnv1a_64_go (fnv1a_64_step hval b) rest

/-- `uint64_t fnv1a_64_buf(const void *buf, size_t len)`. -/
def fnv1a_64_buf (buf : List Nat) : Nat :=
  fnv1a_64_go FNV1A_64_INITIAL_VAL buf

/-- Loop of `fnv1a_64_str`. -/
def fnv1a_64_str_go (hval : Nat) : List Nat → Nat
  | [] => hval
  | b :: rest =>
    if b % 256 = 0 then hval else fnv1a_64_str_go (fnv1a_64_step hval b) rest

/-- `uint64_t fnv1a_64_str(const char *str)`. -/
def fnv1a_64_str (mem : List Nat) : Nat :=
  fnv1a_64_str_go FNV1A_64_INITIAL_VAL mem

/-! ## FileLoader: environment, observable results, `load_file` -/

/-- Outcome of the C standard library calls issued by one `load_file`
invocation.  `openOk` is whether `fopen(path, "rb")` returns non-NULL;
`seekEndOk` whether `fseek(file, 0, SEEK_END)` returns 0; `ftellResult`
the `long` returned by `ftell`; `seekSetOk` whether
`fseek(file, 0, SEEK_SET)` returns 0; `delivered` the bytes that
`fread(out, 1, file_size, file)` stores into the destination (its
length is `fread`'s return value, the number of bytes actually read);
`closeOk` whether `fclose` returns 0. -/
structure FileEnv where
  path : String
  openOk : Bool
  seekEndOk : Bool
  ftellResult : Int
  seekSetOk : Bool
  delivered : List Nat
  closeOk : Bool

/-- A diagnostic emitted by `errorf` on `stderr`, carrying the path it
names: `err p` models `"Error: unable to read file <p>\n"` and
`warn p` models `"Warning: unable to close file <p>\n"`. -/
inductive Diag where
  | err (path : String)
  | warn (path : String)
deriving DecidableEq

/-- Observable outcome of one `load_file` call: the `long int` return
value, the destination buffer after the call (`none` in query mode),
the diagnostics emitted, whether `fread` was invoked, whether `fopen`
succeeded, and whether `fclose` was invoked before return. -/
structure LoadResult where
  ret : Int
  out : Option (Nat → Nat)
  diags : List Diag
  didRead : Bool
  opened : Bool
  closed : Bool

/-- Effect of `fread(out, 1, n, file)` delivering the bytes `data`:
the first `data.length` bytes of the buffer are overwritten in place,
the rest is untouched. -/
def writeBytes (out : Nat → Nat) (data : List Nat) : Nat → Nat :=
  fun i => if h : i < data.length then data.get ⟨i, h⟩ else out i

/-- Effect of `out[i] = v` on the buffer. -/
def setByte (out : Nat → Nat) (i v : Nat) : Nat → Nat :=
  fun j => if j = i then v else out j

/-- `long int load_file(const char *path, char *out)`, translated
branch for branch from the source.  `out = none` models `out == NULL`
(query mode); `out = some o` models fill mode with `o` the initial
contents of the caller's buffer. -/
def load_file (env : FileEnv) (out : Option (Nat → Nat)) : LoadResult :=
  if env.openOk = false then
    { ret := -1, out := out, diags := [.err env.path],
      didRead := false, opened := false, closed := false }
  else if env.seekEndOk = false then
    { ret := -1, out := out, diags := [.err env.path],
      didRead := false, opened := true, closed := true }
  else if env.ftellResult = 0 then
    match out with
    | none =>
      { ret := 1, out := none, diags := [],
        didRead := false, opened := true, closed := true }
    | some o =>
      { ret := 1, out := some (setByte o 0 0), diags := [],
        didRead := false, opened := true, closed := true }
  else if env.ftellResult < 0 then
    { ret := -1, out := out, diags := [.err env.path],
      didRead := false, opened := true, closed := true }
  else
    match out with
    | none =>
      { ret := env.ftellResult + 1, out := none, diags := [],
        didRead := false, opened := true, closed := true }
    | some o =>
      if env.seekSetOk = false then
        { ret := -1, out := some o, diags := [.err env.path],
          didRead := false, opened := true, closed := true }
      else
        let bytes_read := env.delivered.length
        let o1 := writeBytes o env.delivered
        if (bytes_read : Int) ≠ env.ftellResult then
          { ret := -1, out := some o1, diags := [.err env.path],
            didRead := true, opened := true, closed := true }
        else
          { ret := (bytes_read : Int) + 1,
            out := some (setByte o1 bytes_read 0),
            diags := if env.closeOk then [] else [.warn env.path],
            didRead := true, opened := true, closed := true }

/-- The environment of a well-behaved, readable file whose raw content
is `content`: every filesystem call succeeds (except possibly `fclose`)
and `fread` delivers exactly the file's bytes. -/
def goodEnv (path : String) (content : List Nat) (closeOk : Bool) : FileEnv :=
  { path := path, openOk := true, seekEndOk := true,
    ftellResult := content.length, seekSetOk := true,
    delivered := content, closeOk := closeOk }

/-! ## Helper lemmas -/

/-- On a zero-free byte range followed by a terminating zero, the
string loop and the buffer loop agree from any accumulator. -/
theorem fnv1a_32_str_go_append_zero (text : List Nat)
    (h : ∀ b ∈ text, b % 256 ≠ 0) (hval : Nat) :
    fnv1a_32_str_go hval (text ++ [0]) = fnv1a_32_go hval text := by
  induction text generalizing hval with
  | nil => simp [fnv1a_32_str_go, fnv1a_32_go]
  | cons b rest ih =>
    have hb : b % 256 ≠ 0 := h b (List.mem_cons_self b rest)
    have hrest : ∀ x ∈ rest, x % 256 ≠ 0 := fun x hx => h x (List.mem_cons_of_mem b hx)
    simp only [List.cons_append, fnv1a_32_str_go, fnv1a_32_go, if_neg hb]
    exact ih hrest _

/-- Reduction of a query-mode call on a well-behaved non-empty file. -/
theorem load_file_goodEnv_query (path : String) (content : List Nat)
    (closeOk : Bool) (h : 0 < content.length) :
    load_file (goodEnv path content closeOk) none =
      { ret := (content.length : Int) + 1, out := none, diags := [],
        didRead := false, opened := true, closed := true } := by
  have h0 : ¬((content.length : Int) = 0) := by
    simp only [Int.natCast_eq_zero]; omega
  have h1 : ¬((content.length : Int) < 0) := by
    simp only [not_lt]; exact Int.natCast_nonneg _
  simp [load_file, goodEnv, h0, h1]

/-- Reduction of a fill-mode call on a well-behaved non-empty file. -/
theorem load_file_goodEnv_fill (path : String) (content : List Nat)
    (closeOk : Bool) (o : Nat → Nat) (h : 0 < content.length) :
    load_file (goodEnv path content closeOk) (some o) =
      { ret := (content.length : Int) + 1,
        out := some (setByte (writeBytes o content) content.length 0),
        diags := if closeOk then [] else [.warn path],
        didRead := true, opened := true, closed := true } := by
  have h0 : ¬((content.length : Int) = 0) := by
    simp only [Int.natCast_eq_zero]; omega
  have h1 : ¬((content.length : Int) < 0) := by
    simp only [not_lt]; exact Int.natCast_nonneg _
  simp [load_file, goodEnv, h0, h1]

end LazUtils

namespace LazUtils

/-! ## Claims -/

/-- C6: `fnv1a_64_buf` applied to the bytes `[0x61, 0x62, 0x63]`
("abc") equals the standard published FNV-1a-64 test vector
`0xe71fa2190541574b`, i.e. the result of folding those three bytes
(XOR then multiply modulo `2 ^ 64`) starting from the offset basis
`0xcbf29ce484222325` with prime `0x100000001b3`. -/
theorem fnv1a_64_buf_abc_vector :
    fnv1a_64_buf [0x61, 0x62, 0x63] = 0xe71fa2190541574b ∧
    ((((0xcbf29ce484222325 ^^^ 0x61) * 0x100000001b3 % 2 ^ 64
        ^^^ 0x62) * 0x100000001b3 % 2 ^ 64
        ^^^ 0x63) * 0x100000001b3 % 2 ^ 64) = 0xe71fa2190541574b := by
  constructor <;> decide

/-- C7: on empty input every hash entry point returns the unmodified
offset basis: `fnv1a_32_str` on an empty C string (memory holding just
the terminator) and `fnv1a_32_buf` with length 0 both yield
`0x811c9dc5`; `fnv1a_64_str` and `fnv1a_64_buf` analogously yield
`0xcbf29ce484222325`. -/
theorem fnv1a_empty_input_offset_basis :
    fnv1a_32_str [0] = 0x811c9dc5 ∧
    fnv1a_32_buf [] = 0x811c9dc5 ∧
    fnv1a_64_str [0] = 0xcbf29ce484222325 ∧
    fnv1a_64_buf [] = 0xcbf29ce484222325 := by
  refine ⟨?_, ?_, ?_, ?_⟩ <;> decide

/-- C8: for every null-terminated text with no embedded zero byte
(modelled as the list `text` of its non-zero bytes followed in memory
by the terminating zero), `fnv1a_32_str` equals `fnv1a_32_buf` applied
to the text's bytes with length `strlen(text) = text.length`. -/
theorem fnv1a_32_str_eq_buf (text : List Nat)
    (h : ∀ b ∈ text, b % 256 ≠ 0) :
    fnv1a_32_str (text ++ [0]) = fnv1a_32_buf text :=
  fnv1a_32_str_go_append_zero text h FNV1A_32_INITIAL_VAL

/-- Witness for C8 at the concrete text "ab" (= bytes `[0x61, 0x62]`). -/
theorem fnv1a_32_str_eq_buf_witness :
    fnv1a_32_str ([0x61, 0x62] ++ [0]) = fnv1a_32_buf [0x61, 0x62] :=
  fnv1a_32_str_eq_buf [0x61, 0x62] (by decide)

/-- C1: for every well-behaved file of `N > 0` bytes, a query-mode call
returns exactly `N + 1` without issuing a read, and a fill-mode call
returns exactly `N + 1` with the buffer's first `N` bytes equal to the
file's raw content and byte `N` equal to zero. -/
theorem load_file_positive_file (path : String) (content : List Nat)
    (closeOk : Bool) (o : Nat → Nat) (h : 0 < content.length) :
    (load_file (goodEnv path content closeOk) none).ret = content.length + 1 ∧
    (load_file (goodEnv path content closeOk) none).didRead = false ∧
    (load_file (goodEnv path content closeOk) (some o)).ret = content.length + 1 ∧
    (∀ i : Fin content.length,
      ((load_file (goodEnv path content closeOk) (some o)).out.getD o) i.val
        = content.get i) ∧
    ((load_file (goodEnv path content closeOk) (some o)).out.getD o)
        content.length = 0 := by
  rw [load_file_goodEnv_query path content closeOk h,
      load_file_goodEnv_fill path content closeOk o h]
  refine ⟨rfl, rfl, rfl, ?_, ?_⟩
  · intro i
    have hne : i.val ≠ content.length := Nat.ne_of_lt i.isLt
    simp [setByte, writeBytes, hne, i.isLt]
  · simp [setByte]

/-- Witness for C1: the one-byte file with content `[0x41]`. -/
theorem load_file_positive_file_witness :
    (load_file (goodEnv "f" [0x41] true) none).ret = 2 ∧
    (load_file (goodEnv "f" [0x41] true) none).didRead = false ∧
    (load_file (goodEnv "f" [0x41] true) (some fun _ => 9)).ret = 2 ∧
    (∀ i : Fin 1,
      ((load_file (goodEnv "f" [0x41] true) (some fun _ => 9)).out.getD
        (fun _ => 9)) i.val = [0x41].get i) ∧
    ((load_file (goodEnv "f" [0x41] true) (some fun _ => 9)).out.getD
        (fun _ => 9)) 1 = 0 :=
  load_file_positive_file "f" [0x41] true (fun _ => 9) (by decide)

/-- C2: for every zero-byte file, `load_file` returns exactly `1` in
both query and fill mode; fill mode writes a single zero byte at
offset 0 (leaving every other buffer byte untouched) and issues no
read. -/
theorem load_file_empty_file (path : String) (closeOk : Bool)
    (o : Nat → Nat) :
    (load_file (goodEnv path [] closeOk) none).ret = 1 ∧
    (load_file (goodEnv path [] closeOk) (some o)).ret = 1 ∧
    (load_file (goodEnv path [] closeOk) (some o)).out = some (setByte o 0 0) ∧
    ((load_file (goodEnv path [] closeOk) (some o)).out.getD o) 0 = 0 ∧
    (∀ i : Nat, i ≠ 0 →
      ((load_file (goodEnv path [] closeOk) (some o)).out.getD o) i = o i) ∧
    (load_file (goodEnv path [] closeOk) none).didRead = false ∧
    (load_file (goodEnv path [] closeOk) (some o)).didRead = false := by
  refine ⟨rfl, rfl, rfl, rfl, ?_, rfl, rfl⟩
  intro i hi
  simp [load_file, goodEnv, setByte, hi]

/-- C3: every fill-mode call that reaches the read and in which the
number of bytes actually read differs from the determined file length
returns the negative sentinel `-1` (never a partial byte count), emits
the diagnostic naming the path, and releases the handle. -/
theorem load_file_short_read (env : FileEnv) (o : Nat → Nat)
    (hopen : env.openOk = true) (hseek : env.seekEndOk = true)
    (hpos : 0 < env.ftellResult) (hset : env.seekSetOk = true)
    (hshort : (env.delivered.length : Int) ≠ env.ftellResult) :
    (load_file env (some o)).ret = -1 ∧
    (load_file env (some o)).diags = [.err env.path] ∧
    (load_file env (some o)).closed = true := by
  have h0 : ¬(env.ftellResult = 0) := by omega
  have h1 : ¬(env.ftellResult < 0) := by omega
  simp [load_file, hopen, hseek, h0, h1, hset, hshort]

/-- Witness for C3: a two-byte file from which `fread` delivers only
one byte. -/
theorem load_file_short_read_witness :
    (load_file
      { path := "f", openOk := true, seekEndOk := true, ftellResult := 2,
        seekSetOk := true, delivered := [5], closeOk := true }
      (some fun _ => 9)).ret = -1 ∧
    (load_file
      { path := "f", openOk := true, seekEndOk := true, ftellResult := 2,
        seekSetOk := true, delivered := [5], closeOk := true }
      (some fun _ => 9)).diags = [.err "f"] ∧
    (load_file
      { path := "f", openOk := true, seekEndOk := true, ftellResult := 2,
        seekSetOk := true, delivered := [5], closeOk := true }
      (some fun _ => 9)).closed = true :=
  load_file_short_read _ _ rfl rfl (by decide) rfl (by decide)

/-- C4: for every path that cannot be opened, `load_file` returns `-1`
in both query and fill mode, leaves the fill-mode destination buffer
untouched, and emits the diagnostic naming the path. -/
theorem load_file_open_failure (env : FileEnv) (o : Nat → Nat)
    (hopen : env.openOk = false) :
    (load_file env none).ret = -1 ∧
    (load_file env (some o)).ret = -1 ∧
    (load_file env (some o)).out = some o ∧
    (load_file env none).diags = [.err env.path] ∧
    (load_file env (some o)).diags = [.err env.path] := by
  simp [load_file, hopen]

/-- Witness for C4: a non-openable path, both modes. -/
theorem load_file_open_failure_witness :
    (load_file
      { path := "missing", openOk := false, seekEndOk := true,
        ftellResult := 0, seekSetOk := true, delivered := [], closeOk := true }
      none).ret = -1 ∧
    (load_file
      { path := "missing", openOk := false, seekEndOk := true,
        ftellResult := 0, seekSetOk := true, delivered := [], closeOk := true }
      (some fun _ => 9)).ret = -1 ∧
    (load_file
      { path := "missing", openOk := false, seekEndOk := true,
        ftellResult := 0, seekSetOk := true, delivered := [], closeOk := true }
      (some fun _ => 9)).out = some (fun _ => 9) ∧
    (load_file
      { path := "missing", openOk := false, seekEndOk := true,
        ftellResult := 0, seekSetOk := true, delivered := [], closeOk := true }
      none).diags = [.err "missing"] ∧
    (load_file
      { path := "missing", openOk := false, seekEndOk := true,
        ftellResult := 0, seekSetOk := true, delivered := [], closeOk := true }
      (some fun _ => 9)).diags = [.err "missing"] :=
  load_file_open_failure _ _ rfl

/-- Counterexample to C5 as stated: a successful query-mode call on a
two-byte file whose `fclose` fails.  The handle is released
(`closed = true`) and the close fails (`closeOk = false`), yet the
diagnostics are empty — no warning is reported, because the source
discards `fclose`'s return value on every path except the full-success
fill path. -/
theorem load_file_close_warning_cex :
    ({ path := "f", openOk := true, seekEndOk := true, ftellResult := 2,
       seekSetOk := true, delivered := [5, 6],
       closeOk := false : FileEnv }).closeOk = false ∧
    (load_file
      { path := "f", openOk := true, seekEndOk := true, ftellResult := 2,
        seekSetOk := true, delivered := [5, 6], closeOk := false }
      none).ret = 3 ∧
    (load_file
      { path := "f", openOk := true, seekEndOk := true, ftellResult := 2,
        seekSetOk := true, delivered := [5, 6], closeOk := false }
      none).closed = true ∧
    (load_file
      { path := "f", openOk := true, seekEndOk := true, ftellResult := 2,
        seekSetOk := true, delivered := [5, 6], closeOk := false }
      none).diags = [] := by
  refine ⟨rfl, ?_, ?_, ?_⟩ <;> decide

/-- C5 (amended): on every path the handle is released before return
exactly when it was opened; a close failure alone never changes the
return value; and a failing close is reported as a non-fatal warning
exactly on the full-success fill path (a read was issued and the call
succeeded) — on all other paths the close result is discarded and no
warning is emitted. -/
theorem load_file_close_policy (env : FileEnv) (out : Option (Nat → Nat)) :
    (load_file env out).closed = (load_file env out).opened ∧
    (load_file { env with closeOk := true } out).ret
      = (load_file { env with closeOk := false } out).ret ∧
    (Diag.warn env.path ∈ (load_file env out).diags ↔
      (load_file env out).didRead = true ∧
      0 ≤ (load_file env out).ret ∧ env.closeOk = false) := by
  obtain ⟨p, op, se, ft, ss, d, co⟩ := env
  cases out <;> cases op <;> cases se <;> cases ss <;> cases co <;>
    simp only [load_file] <;> split_ifs <;> simp_all
  omega

/-- Witness for C5 (amended): instantiated at the full-success
fill-mode call on a one-byte file whose `fclose` fails. -/
theorem load_file_close_policy_witness :
    (load_file (goodEnv "f" [7] false) (some fun _ => 9)).closed
      = (load_file (goodEnv "f" [7] false) (some fun _ => 9)).opened ∧
    (load_file { goodEnv "f" [7] false with closeOk := true }
        (some fun _ => 9)).ret
      = (load_file { goodEnv "f" [7] false with closeOk := false }
        (some fun _ => 9)).ret ∧
    (Diag.warn "f" ∈
        (load_file (goodEnv "f" [7] false) (some fun _ => 9)).diags ↔
      (load_file (goodEnv "f" [7] false) (some fun _ => 9)).didRead = true ∧
      0 ≤ (load_file (goodEnv "f" [7] false) (some fun _ => 9)).ret ∧
      (goodEnv "f" [7] false).closeOk = false) :=
  load_file_close_policy (goodEnv "f" [7] false) (some fun _ => 9)

/-- C9: `load_file` never returns `0` — every return value is either
exactly the failure sentinel `-1` or a success count of at least `1`. -/
theorem load_file_ret_range (env : FileEnv) (out : Option (Nat → Nat)) :
    (load_file env out).ret = -1 ∨ 1 ≤ (load_file env out).ret := by
  obtain ⟨p, op, se, ft, ss, d, co⟩ := env
  cases out <;> cases op <;> cases se <;> cases ss <;> cases co <;>
    simp only [load_file] <;> split_ifs <;> simp_all

/-- C10: every failing fill-mode call either failed before the read
was attempted (open, seek-to-end, negative length, or seek-to-start
failure) and left the destination buffer completely untouched, or is
the short-read path: a read was issued, the byte count delivered by
`fread` differs from the determined length, and the buffer holds
exactly the delivered prefix. -/
theorem load_file_fill_failure_frame (env : FileEnv) (o : Nat → Nat)
    (hfail : (load_file env (some o)).ret < 0) :
    ((load_file env (some o)).didRead = false ∧
      (load_file env (some o)).out = some o) ∨
    ((load_file env (some o)).didRead = true ∧
      (env.delivered.length : Int) ≠ env.ftellResult ∧
      (load_file env (some o)).out = some (writeBytes o env.delivered)) := by
  obtain ⟨p, op, se, ft, ss, d, co⟩ := env
  revert hfail
  cases op <;> cases se <;> cases ss <;> cases co <;>
    simp only [load_file] <;> split_ifs <;> simp_all <;> omega

/-- Witness for C10: a fill-mode call on a non-openable path. -/
theorem load_file_fill_failure_frame_witness :
    ((load_file
      { path := "m", openOk := false, seekEndOk := true, ftellResult := 0,
        seekSetOk := true, delivered := [], closeOk := true }
      (some fun _ => 9)).didRead = false ∧
     (load_file
      { path := "m", openOk := false, seekEndOk := true, ftellResult := 0,
        seekSetOk := true, delivered := [], closeOk := true }
      (some fun _ => 9)).out = some (fun _ => 9)) ∨
    ((load_file
      { path := "m", openOk := false, seekEndOk := true, ftellResult := 0,
        seekSetOk := true, delivered := [], closeOk := true }
      (some fun _ => 9)).didRead = true ∧
     (([] : List Nat).length : Int) ≠ (0 : Int) ∧
     (load_file
      { path := "m", openOk := false, seekEndOk := true, ftellResult := 0,
        seekSetOk := true, delivered := [], closeOk := true }
      (some fun _ => 9)).out = some (writeBytes (fun _ => 9) [])) :=
  load_file_fill_failure_frame _ _ (by decide)

end LazUtils
